import Mathlib

/-!
Verification of the scheduled-job orchestration service and the typeorm
connection loader of the educational-experiment-service repository.

The TypeScript code is shallowly embedded: repositories become lists of
rows, the AWS step-function client becomes an oracle (a function that
either resolves or rejects), and every externally visible action
(step-function start/stop, row upsert/delete, error log) is recorded in
an effect trace.  JavaScript `Date` values are modelled as numbers
(`Option Nat`, `none` standing for null/undefined), and thrown
JavaScript errors as an explicit `Except`.
-/

namespace EES

/-- Experiment states from the external `ees_types` package
(`EXPERIMENT_STATE`); the service only inspects `SCHEDULED`,
`ENROLLING`, `ENROLLMENT_COMPLETE` and `CANCELLED`. -/
inductive EXPERIMENT_STATE
  | INACTIVE
  | PREVIEW
  | SCHEDULED
  | ENROLLING
  | ENROLLMENT_COMPLETE
  | CANCELLED
  deriving DecidableEq, Repr

/-- Schedule types (`SCHEDULE_TYPE`) from `ScheduledJob.ts`. -/
inductive SCHEDULE_TYPE
  | START_EXPERIMENT
  | END_EXPERIMENT
  deriving DecidableEq, Repr

/-- The string value of a `SCHEDULE_TYPE` member, used when the service
interpolates the type into a job id. -/
def SCHEDULE_TYPE.str : SCHEDULE_TYPE → String
  | SCHEDULE_TYPE.START_EXPERIMENT => "start_experiment"
  | SCHEDULE_TYPE.END_EXPERIMENT => "end_experiment"

/-- A row of the scheduled-job table (`ScheduledJob` entity):
id, owning experiment, schedule type, timestamp and the external
step-function execution handle. -/
structure ScheduledJob where
  id : String
  experimentId : String
  type : SCHEDULE_TYPE
  timeStamp : Option Nat
  executionArn : Option String
  deriving DecidableEq, Repr

/-- The fields of an `Experiment` entity read by the service. -/
structure Experiment where
  id : String
  state : EXPERIMENT_STATE
  startOn : Option Nat
  endOn : Option Nat
  deriving DecidableEq, Repr

/-- The configuration read from `env`: the host callback URL and the
step-function state machine ARN (`env.schedular.stepFunctionArn`). -/
structure Env where
  hostUrl : String
  stepFunctionArn : String
  deriving DecidableEq, Repr

/-- The JSON document `JSON.stringify({ timeStamp, body, url })` passed
as the step-function input, kept structured. -/
structure StepFnInput where
  timeStamp : Option Nat
  bodyId : String
  url : String
  deriving DecidableEq, Repr

/-- The argument of `stepFunctionStartExecution`. -/
structure StepFnRequest where
  stateMachineArn : String
  input : StepFnInput
  deriving DecidableEq, Repr

/-- The resolved value of `stepFunctionStartExecution`. -/
structure StartExecData where
  executionArn : Option String
  deriving DecidableEq, Repr

/-- A thrown JavaScript error: an `Error` with a message, or a
`TypeError` raised by dereferencing undefined. -/
inductive JsError
  | err (message : String)
  | typeError (message : String)
  deriving DecidableEq, Repr

/-- Reading `error.message` off a thrown error. -/
def JsError.message : JsError → String
  | JsError.err m => m
  | JsError.typeError m => m

/-- Externally visible actions of `updateExperimentSchedules`:
step-function calls, row writes, and error logging. -/
inductive Effect
  | stepFnStart (ty : SCHEDULE_TYPE) (req : StepFnRequest)
  | stepFnStop (executionArn : Option String)
  | upsertJob (job : ScheduledJob)
  | deleteJob (id : String)
  | logError (message : String)
  deriving DecidableEq, Repr

/-- Whether an effect is a row upsert. -/
def Effect.isUpsert : Effect → Bool
  | Effect.upsertJob _ => true
  | _ => false

/-- Whether an effect is a step-function start call of the given
schedule type. -/
def Effect.isStepFnStartOf (ty : SCHEDULE_TYPE) : Effect → Bool
  | Effect.stepFnStart tyx _ => tyx == ty
  | _ => false

/-- The AWS client (`AWSService`): each call either resolves or
rejects.  A rejection of `startExec` carries the reason interpolated
into the error message; a rejection of `stopExec` is rethrown by the
awaiting caller. -/
structure AwsOracle where
  startExec : StepFnRequest → Except String StartExecData
  stopExec : Option String → Except JsError Unit

/-- Modelled from the spec: `ScheduledJobRepository.upsertScheduledJob`
(its definition is outside the given sources); per the spec it
upserts a row — replaces the row with the same id, or appends. -/
def upsertScheduledJob (repo : List ScheduledJob) (job : ScheduledJob) : List ScheduledJob :=
  if repo.any (fun j => j.id == job.id) then
    repo.map (fun j => if j.id == job.id then job else j)
  else
    repo ++ [job]

/-- Deletion, `scheduledJobRepository.delete` by id: removes the rows with the
given id. -/
def deleteScheduledJob (repo : List ScheduledJob) (id : String) : List ScheduledJob :=
  repo.filter (fun j => !(j.id == id))

/-- Line 63: `state === EXPERIMENT_STATE.SCHEDULED`. -/
def experimentStartCondition (e : Experiment) : Bool :=
  e.state == EXPERIMENT_STATE.SCHEDULED

/-- Lines 64-65: `!(state === ENROLLMENT_COMPLETE || state === CANCELLED) && endOn`
(`endOn`, a Date or null, is truthy exactly when present). -/
def experimentEndCondition (e : Experiment) : Bool :=
  !(e.state == EXPERIMENT_STATE.ENROLLMENT_COMPLETE || e.state == EXPERIMENT_STATE.CANCELLED)
    && e.endOn.isSome

/-- Lines 148-151: the callback URL chosen by schedule type. -/
def scheduledJobCallbackUrl (env : Env) (ty : SCHEDULE_TYPE) : String :=
  if ty == SCHEDULE_TYPE.START_EXPERIMENT then
    env.hostUrl ++ "/scheduledJobs/start"
  else
    env.hostUrl ++ "/scheduledJobs/end"

/-- Lines 152-159: the `experimentSchedularStateMachine` request
object. -/
def stepFnRequest (env : Env) (timeStamp : Option Nat) (bodyId : String)
    (ty : SCHEDULE_TYPE) : StepFnRequest :=
  { stateMachineArn := env.stepFunctionArn
    input := { timeStamp := timeStamp, bodyId := bodyId, url := scheduledJobCallbackUrl env ty } }

/-- Lines 163-167: the error thrown when the step-function call
rejects (a stringified `{ type: QUERY_FAILED, message }`). -/
def queryFailedReject (reason : String) : JsError :=
  JsError.err ("QUERY_FAILED: Error in calling step function " ++ reason)

/-- Rendering of the resolved data interpolated at line 168. -/
def renderExecData (d : StartExecData) : String :=
  match d.executionArn with
  | some a => a
  | none => "undefined"

/-- Line 168: the error thrown unconditionally after the step-function
call resolves. -/
def queryFailedLogs (d : StartExecData) : JsError :=
  JsError.err ("QUERY_FAILED: Logs of step function " ++ renderExecData d)

/-- Lines 147-170, `startExperimentSchedular`: builds the request,
starts the step-function execution, and then throws — either the
rejection wrapper (lines 163-167) or, when the call resolved, the
unconditional `throw` at line 168, which makes the trailing
`return returnData` unreachable. -/
def startExperimentSchedular (env : Env) (aws : AwsOracle) (timeStamp : Option Nat)
    (bodyId : String) (ty : SCHEDULE_TYPE) : List Effect × Except JsError StartExecData :=
  let req := stepFnRequest env timeStamp bodyId ty
  match aws.startExec req with
  | Except.error reason => ([Effect.stepFnStart ty req], Except.error (queryFailedReject reason))
  | Except.ok returnData => ([Effect.stepFnStart ty req], Except.error (queryFailedLogs returnData))

/-- The schedular as its dead `return returnData` (line 169) intends,
i.e. without the unconditional debug `throw` at line 168; used to state
the behaviour the spec describes against the behaviour the code has. -/
def startExperimentSchedularFixed (env : Env) (aws : AwsOracle) (timeStamp : Option Nat)
    (bodyId : String) (ty : SCHEDULE_TYPE) : List Effect × Except JsError StartExecData :=
  let req := stepFnRequest env timeStamp bodyId ty
  match aws.startExec req with
  | Except.error reason => ([Effect.stepFnStart ty req], Except.error (queryFailedReject reason))
  | Except.ok returnData => ([Effect.stepFnStart ty req], Except.ok returnData)

/-- Lines 172-174, `stopExperimentSchedular`: one call to
`stepFunctionStopExecution` with the given execution ARN. -/
def stopExperimentSchedular (aws : AwsOracle) (executionArn : Option String) :
    List Effect × Except JsError Unit :=
  ([Effect.stepFnStop executionArn], aws.stopExec executionArn)

/-- The outcome of a section of `updateExperimentSchedules`: the
effects performed, the resulting job table, and the error that aborted
the body, if any. -/
structure StepResult where
  trace : List Effect
  repo : List ScheduledJob
  error : Option JsError
  deriving Repr

/-- Lines 75-98 / 113-135: take the existing doc or build a fresh one
(id = experiment id, underscore, schedule type), call the schedular,
stop the previous execution when one is recorded, and upsert the row
with the new timestamp and the returned execution ARN.  `sched`
abstracts `startExperimentSchedular` so that the code as written and
the intended code can be compared. -/
def defaultScheduleDoc (expId : String) (ty : SCHEDULE_TYPE) (stamp : Option Nat) :
    ScheduledJob :=
  { id := expId ++ "_" ++ ty.str
    experimentId := expId
    type := ty
    timeStamp := stamp
    executionArn := none }

def scheduleCall
    (sched : Option Nat → String → SCHEDULE_TYPE → List Effect × Except JsError StartExecData)
    (aws : AwsOracle) (repo : List ScheduledJob) (expId : String) (ty : SCHEDULE_TYPE)
    (stamp : Option Nat) (doc? : Option ScheduledJob) : StepResult :=
  let sdoc : ScheduledJob := doc?.getD (defaultScheduleDoc expId ty stamp)
  match sched stamp sdoc.id ty with
  | (tr1, Except.error er) => ⟨tr1, repo, some er⟩
  | (tr1, Except.ok response) =>
    let stopStep : List Effect × Except JsError Unit :=
      match doc? with
      | some doc =>
        match doc.executionArn with
        | some _ => stopExperimentSchedular aws doc.executionArn
        | none => ([], Except.ok ())
      | none => ([], Except.ok ())
    match stopStep with
    | (tr2, Except.error er) => ⟨tr1 ++ tr2, repo, some er⟩
    | (tr2, Except.ok _) =>
      let newJob : ScheduledJob :=
        { sdoc with timeStamp := stamp, executionArn := response.executionArn }
      ⟨tr1 ++ tr2 ++ [Effect.upsertJob newJob], upsertScheduledJob repo newJob, none⟩

/-- JavaScript strict equality `===` between the stored job timestamp
and the experiment's date, as it evaluates at lines 74 and 112: both
operands are nullable `Date`s, the job's hydrated by the ORM from the
row and the experiment's coming from the caller, so when either is an
object the two are distinct references and `===` is false; it is true
only when both are null/undefined.  The instants the Dates carry
(`Option Nat` here) never influence the outcome. -/
def dateRefEq (a b : Option Nat) : Bool :=
  match a, b with
  | none, none => true
  | _, _ => false

/-- Lines 73-104 (start, with `cond = experimentStartCondition`,
`stamp = startOn`) and lines 111-141 (end, with
`cond = experimentEndCondition`, `stamp = endOn`): when the condition
holds, call-and-upsert if there is no doc or the doc's timestamp is
not strictly equal (`!==`, reference inequality on Dates — see
`dateRefEq`) to the truthy date; otherwise delete the doc and stop its
execution. -/
def scheduleSection
    (sched : Option Nat → String → SCHEDULE_TYPE → List Effect × Except JsError StartExecData)
    (aws : AwsOracle) (repo : List ScheduledJob) (expId : String) (cond : Bool)
    (ty : SCHEDULE_TYPE) (stamp : Option Nat) (doc? : Option ScheduledJob) : StepResult :=
  if cond then
    match doc? with
    | none => scheduleCall sched aws repo expId ty stamp none
    | some doc =>
      if stamp.isSome && !(dateRefEq doc.timeStamp stamp) then
        scheduleCall sched aws repo expId ty stamp (some doc)
      else
        ⟨[], repo, none⟩
  else
    match doc? with
    | some doc =>
      let repo1 := deleteScheduledJob repo doc.id
      let stopStep := stopExperimentSchedular aws doc.executionArn
      ⟨Effect.deleteJob doc.id :: stopStep.1, repo1,
        match stopStep.2 with
        | Except.ok _ => none
        | Except.error er => some er⟩
    | none => ⟨[], repo, none⟩

/-- Line 67: `scheduledJobRepository.find({ experimentId: id })`. -/
def scheduledJobsOf (repo : List ScheduledJob) (expId : String) : List ScheduledJob :=
  repo.filter (fun j => j.experimentId == expId)

/-- Lines 68-70 / 106-108: pick the job of the given schedule type out
of the queried jobs. -/
def findScheduleDoc (jobs : List ScheduledJob) (ty : SCHEDULE_TYPE) : Option ScheduledJob :=
  jobs.find? (fun j => j.type == ty)

/-- Lines 61-141, the body of the `try` block: compute the conditions,
query the jobs of the experiment, and run the start section then the
end section; an error anywhere aborts the remainder. -/
def updateInnerWith
    (sched : Option Nat → String → SCHEDULE_TYPE → List Effect × Except JsError StartExecData)
    (aws : AwsOracle) (repo : List ScheduledJob) (e : Experiment) : StepResult :=
  let scheduledJobs := scheduledJobsOf repo e.id
  let startExperimentDoc := findScheduleDoc scheduledJobs SCHEDULE_TYPE.START_EXPERIMENT
  let r1 := scheduleSection sched aws repo e.id (experimentStartCondition e)
    SCHEDULE_TYPE.START_EXPERIMENT e.startOn startExperimentDoc
  match r1.error with
  | some er => ⟨r1.trace, r1.repo, some er⟩
  | none =>
    let endExperimentDoc := findScheduleDoc scheduledJobs SCHEDULE_TYPE.END_EXPERIMENT
    let r2 := scheduleSection sched aws r1.repo e.id (experimentEndCondition e)
      SCHEDULE_TYPE.END_EXPERIMENT e.endOn endExperimentDoc
    ⟨r1.trace ++ r2.trace, r2.repo, r2.error⟩

/-- Lines 60-145, `updateExperimentSchedules` with the schedular
abstracted: the whole body sits in a `try`; a thrown error is caught
and logged (line 143) and the method returns normally. -/
def updateExperimentSchedulesWith
    (sched : Option Nat → String → SCHEDULE_TYPE → List Effect × Except JsError StartExecData)
    (aws : AwsOracle) (repo : List ScheduledJob) (e : Experiment) :
    List Effect × List ScheduledJob :=
  let r := updateInnerWith sched aws repo e
  match r.error with
  | some er =>
    (r.trace ++ [Effect.logError ("Error in experiment schedular " ++ er.message)], r.repo)
  | none => (r.trace, r.repo)

/-- The method `updateExperimentSchedules` as written (with the always-throwing
schedular). -/
def updateExperimentSchedules (env : Env) (aws : AwsOracle) (repo : List ScheduledJob)
    (e : Experiment) : List Effect × List ScheduledJob :=
  updateExperimentSchedulesWith (startExperimentSchedular env aws) aws repo e

/-- The method `updateExperimentSchedules` with the debug throw of line 168
removed, i.e. the behaviour the surrounding code and the spec
describe. -/
def updateExperimentSchedulesFixed (env : Env) (aws : AwsOracle) (repo : List ScheduledJob)
    (e : Experiment) : List Effect × List ScheduledJob :=
  updateExperimentSchedulesWith (startExperimentSchedularFixed env aws) aws repo e

/-- A user row; only the id is relevant here. -/
structure User where
  id : String
  deriving DecidableEq, Repr

/-- Modelled from the spec: `systemUserDoc.id` from the seed module
`init/seed/systemUser` (outside the given sources); the claims depend
only on it being a fixed id, not on its value. -/
def systemUserId : String := "system-user"

/-- Actions of `startExperiment` / `endExperiment`: the repository
reads and the delegated `ExperimentService.updateState` call. -/
inductive SvcEffect
  | findJob (id : String)
  | findExperiment (id : String)
  | findUser (id : String)
  | updateStateCall (experimentId : String) (state : EXPERIMENT_STATE) (user : Option User)
  deriving DecidableEq, Repr

/-- The value returned by `startExperiment` / `endExperiment`: the
empty object literal, or whatever the delegated `updateState` call
returned (kept symbolic as the call's arguments). -/
inductive SvcResult
  | emptyObj
  | updateStateResult (experimentId : String) (state : EXPERIMENT_STATE) (user : Option User)
  deriving DecidableEq, Repr

/-- The tables the service reads. -/
structure SvcCtx where
  jobs : List ScheduledJob
  experiments : List Experiment
  users : List User
  deriving Repr

/-- Lines 25-36, `startExperiment`: look up the scheduled job by id;
when it exists and its `experimentId` is truthy, look up the
experiment, and when that exists too, fetch the system user and
delegate to `updateState(experimentId, ENROLLING, systemUser)`;
otherwise return `{}`. -/
def startExperiment (ctx : SvcCtx) (id : String) : List SvcEffect × Except JsError SvcResult :=
  match ctx.jobs.find? (fun j => j.id == id) with
  | none => ([SvcEffect.findJob id], Except.ok SvcResult.emptyObj)
  | some job =>
    if job.experimentId == "" then
      ([SvcEffect.findJob id], Except.ok SvcResult.emptyObj)
    else
      match ctx.experiments.find? (fun x => x.id == job.experimentId) with
      | none =>
        ([SvcEffect.findJob id, SvcEffect.findExperiment job.experimentId],
          Except.ok SvcResult.emptyObj)
      | some _ =>
        let systemUser := ctx.users.find? (fun u => u.id == systemUserId)
        ([SvcEffect.findJob id, SvcEffect.findExperiment job.experimentId,
            SvcEffect.findUser systemUserId,
            SvcEffect.updateStateCall job.experimentId EXPERIMENT_STATE.ENROLLING systemUser],
          Except.ok (SvcResult.updateStateResult job.experimentId
            EXPERIMENT_STATE.ENROLLING systemUser))

/-- Lines 38-48, `endExperiment`: look up the scheduled job by id and
immediately dereference `scheduledJob.experimentId` (line 40) — a
`TypeError` when no job was found; when job and experiment exist,
fetch the system user and delegate to
`updateState(experimentId, ENROLLMENT_COMPLETE, systemUser)`;
otherwise return `{}`. -/
def endExperiment (ctx : SvcCtx) (id : String) : List SvcEffect × Except JsError SvcResult :=
  match ctx.jobs.find? (fun j => j.id == id) with
  | none =>
    ([SvcEffect.findJob id],
      Except.error (JsError.typeError "Cannot read property experimentId of undefined"))
  | some job =>
    match ctx.experiments.find? (fun x => x.id == job.experimentId) with
    | none =>
      ([SvcEffect.findJob id, SvcEffect.findExperiment job.experimentId],
        Except.ok SvcResult.emptyObj)
    | some _ =>
      let systemUser := ctx.users.find? (fun u => u.id == systemUserId)
      ([SvcEffect.findJob id, SvcEffect.findExperiment job.experimentId,
          SvcEffect.findUser systemUserId,
          SvcEffect.updateStateCall job.experimentId EXPERIMENT_STATE.ENROLLMENT_COMPLETE systemUser],
        Except.ok (SvcResult.updateStateResult job.experimentId
          EXPERIMENT_STATE.ENROLLMENT_COMPLETE systemUser))

/-! ### The typeorm connection loader -/

/-- The database part of `env` read by the loader (lines 11-19). -/
structure DbEnv where
  dbType : String
  host : String
  port : Nat
  username : String
  password : String
  synchronize : Bool
  logging : Bool
  entities : List String
  migrations : List String
  deriving DecidableEq, Repr

/-- The options returned by `getConnectionOptions()`, kept opaque as a
key-value list: the loader only merges over them. -/
structure LoadedConnectionOptions where
  base : List (String × String)
  deriving DecidableEq, Repr

/-- The merged options passed to `createConnection` (the
`Object.assign` at lines 10-20): the loaded options with every
env-derived field overriding. -/
structure ConnectionOptions where
  base : List (String × String)
  dbType : String
  host : String
  port : Nat
  username : String
  password : String
  synchronize : Bool
  logging : Bool
  entities : List String
  migrations : List String
  deriving DecidableEq, Repr

/-- Lines 10-20: assemble the connection options from the loaded
options and `env`. -/
def assignConnectionOptions (loaded : LoadedConnectionOptions) (db : DbEnv) :
    ConnectionOptions :=
  { base := loaded.base
    dbType := db.dbType
    host := db.host
    port := db.port
    username := db.username
    password := db.password
    synchronize := db.synchronize
    logging := db.logging
    entities := db.entities
    migrations := db.migrations }

/-- An established database connection, identified opaquely. -/
structure Connection where
  connId : Nat
  deriving DecidableEq, Repr

/-- The error rejected by `createConnection`: a driver error with an
optional `code` property and a message. -/
structure ConnError where
  code : Option String
  message : String
  deriving DecidableEq, Repr

/-- What the registered shutdown handler does. -/
inductive ShutdownAction
  | closeConnection (conn : Connection)
  deriving DecidableEq, Repr

/-- Actions of the loader: the `console.log` of the caught error, the
`settings.setData` store, and the `settings.onShutdown` registration. -/
inductive LoaderEffect
  | consoleLogError (e : ConnError)
  | setData (key : String) (conn : Connection)
  | onShutdown (action : ShutdownAction)
  deriving DecidableEq, Repr

/-- Modelled from the spec: the string value of
`SERVER_ERROR.DB_UNREACHABLE` from the external `ees_types` package. -/
def SERVER_ERROR_DB_UNREACHABLE : String := "Database not reachable"

/-- Modelled from the spec: the string value of
`SERVER_ERROR.DB_AUTH_FAIL` from the external `ees_types` package. -/
def SERVER_ERROR_DB_AUTH_FAIL : String := "Database auth failed"

/-- Lines 7-37, `typeormLoader`: load the connection options (outside
the `try`, so a failure there propagates as-is), merge the env fields
over them, and create the connection; on success, when settings are
present, store the connection under the key `connection` and register
a shutdown handler closing it; on failure, log the error and throw
`DB_UNREACHABLE` when `error.code === 'ECONNREFUSED'` and
`DB_AUTH_FAIL` otherwise.  `getOpts` and `create` are oracles for
`getConnectionOptions` and `createConnection`. -/
def typeormLoader (db : DbEnv) (getOpts : Except JsError LoadedConnectionOptions)
    (create : ConnectionOptions → Except ConnError Connection)
    (settings : Option Unit) : List LoaderEffect × Except JsError Unit :=
  match getOpts with
  | Except.error e => ([], Except.error e)
  | Except.ok loaded =>
    let connectionOptions := assignConnectionOptions loaded db
    match create connectionOptions with
    | Except.ok connection =>
      (match settings with
        | some _ =>
          [LoaderEffect.setData "connection" connection,
            LoaderEffect.onShutdown (ShutdownAction.closeConnection connection)]
        | none => [],
        Except.ok ())
    | Except.error er =>
      ([LoaderEffect.consoleLogError er],
        if er.code == some "ECONNREFUSED" then
          Except.error (JsError.err SERVER_ERROR_DB_UNREACHABLE)
        else
          Except.error (JsError.err SERVER_ERROR_DB_AUTH_FAIL))

/-! ### Concrete fixtures used by witnesses and counterexample inputs -/

/-- A concrete environment. -/
def env0 : Env := { hostUrl := "https://upgrade.host", stepFunctionArn := "arn:states:sm" }

/-- An AWS oracle whose calls all resolve; started executions get the
handle `arn:exec:1`. -/
def aws0 : AwsOracle :=
  { startExec := fun _ => Except.ok { executionArn := some "arn:exec:1" }
    stopExec := fun _ => Except.ok () }

/-- A scheduled experiment with a fresh start date and no scheduled
jobs yet. -/
def exp1 : Experiment :=
  { id := "e1", state := EXPERIMENT_STATE.SCHEDULED, startOn := some 10, endOn := none }

/-- The start job the service is supposed to write for `exp1`. -/
def job1 : ScheduledJob :=
  { id := "e1_start_experiment", experimentId := "e1"
    type := SCHEDULE_TYPE.START_EXPERIMENT, timeStamp := some 10
    executionArn := some "arn:exec:1" }

/-- An enrolling experiment with an end date and no end job yet: the
end condition holds, so an end schedule should be maintained. -/
def exp5 : Experiment :=
  { id := "e5", state := EXPERIMENT_STATE.ENROLLING, startOn := none, endOn := some 9 }

/-- The end job the service is supposed to write for `exp5`. -/
def endJob5 : ScheduledJob :=
  { id := "e5_end_experiment", experimentId := "e5"
    type := SCHEDULE_TYPE.END_EXPERIMENT, timeStamp := some 9
    executionArn := some "arn:exec:1" }

/-- A scheduled experiment whose end date was cleared: the end
condition fails, so its existing end job should be deleted. -/
def exp5b : Experiment :=
  { id := "e5", state := EXPERIMENT_STATE.SCHEDULED, startOn := some 3, endOn := none }

/-- The stale end job of `exp5b`. -/
def endJob5x : ScheduledJob :=
  { id := "e5_end_experiment", experimentId := "e5"
    type := SCHEDULE_TYPE.END_EXPERIMENT, timeStamp := some 9
    executionArn := some "arn:old" }

/-- A scheduled experiment with fresh start and end dates. -/
def exp7 : Experiment :=
  { id := "e7", state := EXPERIMENT_STATE.SCHEDULED, startOn := some 4, endOn := some 6 }

/-- The start row the intended code writes for `exp7`: id is the
experiment id joined with the schedule type by an underscore, the
timestamp is `startOn`, the handle is the one the API returned. -/
def startRow7 : ScheduledJob :=
  { id := "e7_start_experiment", experimentId := "e7"
    type := SCHEDULE_TYPE.START_EXPERIMENT, timeStamp := some 4
    executionArn := some "arn:exec:1" }

/-- The end row the intended code writes for `exp7`. -/
def endRow7 : ScheduledJob :=
  { id := "e7_end_experiment", experimentId := "e7"
    type := SCHEDULE_TYPE.END_EXPERIMENT, timeStamp := some 6
    executionArn := some "arn:exec:1" }

/-- Empty tables: no scheduled job rows at all. -/
def ctx8 : SvcCtx := { jobs := [], experiments := [], users := [] }

/-! ### Helper lemmas -/

/-- The schedular as written always throws: whatever the AWS oracle
does, the result is the single start-execution effect together with a
thrown error — the rejection wrapper or the unconditional throw of
line 168. -/
theorem schedular_always_throws (env : Env) (aws : AwsOracle) (ts : Option Nat)
    (b : String) (ty : SCHEDULE_TYPE) :
    ∃ er, startExperimentSchedular env aws ts b ty =
      ([Effect.stepFnStart ty (stepFnRequest env ts b ty)], Except.error er) := by
  cases h : aws.startExec (stepFnRequest env ts b ty) with
  | error reason =>
    exact ⟨queryFailedReject reason, by simp [startExperimentSchedular, h]⟩
  | ok d =>
    exact ⟨queryFailedLogs d, by simp [startExperimentSchedular, h]⟩

/-- With the schedular as written, a call-and-upsert step always stops
at the schedular's thrown error: the only effect is the start call and
the job table is untouched. -/
theorem scheduleCall_faithful (env : Env) (aws : AwsOracle) (repo : List ScheduledJob)
    (expId : String) (ty : SCHEDULE_TYPE) (stamp : Option Nat) (doc? : Option ScheduledJob) :
    ∃ er, scheduleCall (startExperimentSchedular env aws) aws repo expId ty stamp doc? =
      ⟨[Effect.stepFnStart ty (stepFnRequest env stamp
          (doc?.getD (defaultScheduleDoc expId ty stamp)).id ty)], repo, some er⟩ := by
  obtain ⟨er, h⟩ := schedular_always_throws env aws stamp
    (doc?.getD (defaultScheduleDoc expId ty stamp)).id ty
  exact ⟨er, by simp [scheduleCall, h]⟩

/-- With the schedular as written, a section of
`updateExperimentSchedules` does one of exactly three things: nothing;
a start call of its own schedule type followed by the thrown error,
leaving the table untouched; or (condition false, doc present) the
delete of the doc's row and the stop call. -/
theorem scheduleSection_faithful_spec (env : Env) (aws : AwsOracle) (repo : List ScheduledJob)
    (expId : String) (cond : Bool) (ty : SCHEDULE_TYPE) (stamp : Option Nat)
    (doc? : Option ScheduledJob) :
    scheduleSection (startExperimentSchedular env aws) aws repo expId cond ty stamp doc? =
        ⟨[], repo, none⟩
    ∨ (∃ er req,
        scheduleSection (startExperimentSchedular env aws) aws repo expId cond ty stamp doc? =
          ⟨[Effect.stepFnStart ty req], repo, some er⟩)
    ∨ (∃ doc, doc? = some doc ∧ cond = false ∧
        scheduleSection (startExperimentSchedular env aws) aws repo expId cond ty stamp doc? =
          ⟨[Effect.deleteJob doc.id, Effect.stepFnStop doc.executionArn],
            deleteScheduledJob repo doc.id,
            match aws.stopExec doc.executionArn with
            | Except.ok _ => none
            | Except.error er => some er⟩) := by
  cases cond with
  | true =>
    cases doc? with
    | none =>
      obtain ⟨er, h⟩ := scheduleCall_faithful env aws repo expId ty stamp none
      refine Or.inr (Or.inl ⟨er,
        stepFnRequest env stamp ((none : Option ScheduledJob).getD
          (defaultScheduleDoc expId ty stamp)).id ty, ?_⟩)
      simp only [scheduleSection, if_true]
      exact h
    | some doc =>
      by_cases hts : (stamp.isSome && !(dateRefEq doc.timeStamp stamp)) = true
      · obtain ⟨er, h⟩ := scheduleCall_faithful env aws repo expId ty stamp (some doc)
        refine Or.inr (Or.inl ⟨er,
          stepFnRequest env stamp ((some doc).getD
            (defaultScheduleDoc expId ty stamp)).id ty, ?_⟩)
        simp only [scheduleSection, if_true, hts]
        exact h
      · have hts' : (stamp.isSome && !(dateRefEq doc.timeStamp stamp)) = false := by
          simpa using hts
        left
        simp [scheduleSection, hts']
  | false =>
    cases doc? with
    | some doc =>
      exact Or.inr (Or.inr ⟨doc, rfl, rfl, by simp [scheduleSection, stopExperimentSchedular]⟩)
    | none =>
      left
      simp [scheduleSection]

/-- The skip branch of a section (no API call, table untouched) is
reached with a doc present only when the date is null: with a set date
the strict-equality test compares distinct Date objects and the call
branch is always taken. -/
theorem scheduleSection_skip
    (sched : Option Nat → String → SCHEDULE_TYPE → List Effect × Except JsError StartExecData)
    (aws : AwsOracle) (repo : List ScheduledJob) (expId : String) (ty : SCHEDULE_TYPE)
    (stamp : Option Nat) (doc : ScheduledJob) (hstamp : stamp = none) :
    scheduleSection sched aws repo expId true ty stamp (some doc) = ⟨[], repo, none⟩ := by
  simp [scheduleSection, hstamp]

/-- After a delete, no row carries the deleted id. -/
theorem deleteScheduledJob_all_ne (repo : List ScheduledJob) (idx : String) :
    ((deleteScheduledJob repo idx).all (fun j => !(j.id == idx))) = true := by
  rw [List.all_eq_true]
  intro j hj
  exact (List.mem_filter.mp hj).2

/-- A boolean `all` transfers along a sublist. -/
theorem all_of_subset (l1 l2 : List ScheduledJob) (p : ScheduledJob → Bool)
    (hsub : l1 ⊆ l2) (h : l2.all p = true) : l1.all p = true := by
  rw [List.all_eq_true] at h ⊢
  exact fun x hx => h x (hsub hx)

/-! ### Claims -/

/-- Claim C1 (code bug): for a `SCHEDULED` experiment with a fresh
`startOn` and no existing start job, `updateExperimentSchedules` does
call the external step-function start API, but the unconditional
`throw` at the end of `startExperimentSchedular` (line 168) aborts the
method before the upsert: the only further effect is the error log and
no row is written.  With that debug throw removed
(`updateExperimentSchedulesFixed`) the claimed call-then-upsert
behaviour holds: the start job row is upserted with `timeStamp`
equal to `startOn` and `executionArn` equal to the handle returned by
the API. -/
theorem C1_start_upsert_unreachable :
    updateExperimentSchedules env0 aws0 [] exp1 =
      ([Effect.stepFnStart SCHEDULE_TYPE.START_EXPERIMENT
          (stepFnRequest env0 (some 10) "e1_start_experiment" SCHEDULE_TYPE.START_EXPERIMENT),
        Effect.logError "Error in experiment schedular QUERY_FAILED: Logs of step function arn:exec:1"],
        [])
    ∧ updateExperimentSchedulesFixed env0 aws0 [] exp1 =
      ([Effect.stepFnStart SCHEDULE_TYPE.START_EXPERIMENT
          (stepFnRequest env0 (some 10) "e1_start_experiment" SCHEDULE_TYPE.START_EXPERIMENT),
        Effect.upsertJob job1],
        [job1]) := by
  exact ⟨rfl, rfl⟩

/-- Claim C5 (code bug): the end schedule is not actually maintained.
When the end condition holds and no end job exists (`exp5`), the code
starts the end step-function call but the unconditional throw of line
168 prevents any row from being written; and when the end condition
fails while an end job exists (`exp5b`, whose `SCHEDULED` state also
triggers a start call), the abort happens before the end section, so
the stale end job is neither deleted nor stopped.  The intended code
(`updateExperimentSchedulesFixed`) does both: it writes the end row
for `exp5` and deletes and stops the stale end job of `exp5b`. -/
theorem C5_end_schedule_not_maintained :
    (updateExperimentSchedules env0 aws0 [] exp5).2 = []
    ∧ ((updateExperimentSchedules env0 aws0 [] exp5).1.all (fun ef => !ef.isUpsert)) = true
    ∧ (updateExperimentSchedules env0 aws0 [endJob5x] exp5b).2 = [endJob5x]
    ∧ ((updateExperimentSchedules env0 aws0 [endJob5x] exp5b).1.all
        (fun ef => !(ef == Effect.deleteJob "e5_end_experiment"))) = true
    ∧ (updateExperimentSchedulesFixed env0 aws0 [] exp5).2 = [endJob5]
    ∧ (updateExperimentSchedulesFixed env0 aws0 [endJob5x] exp5b).1.contains
        (Effect.deleteJob "e5_end_experiment") = true
    ∧ (updateExperimentSchedulesFixed env0 aws0 [endJob5x] exp5b).1.contains
        (Effect.stepFnStop (some "arn:old")) = true
    ∧ ((updateExperimentSchedulesFixed env0 aws0 [endJob5x] exp5b).2.all
        (fun j => !(j.id == "e5_end_experiment"))) = true := by
  refine ⟨rfl, rfl, rfl, rfl, rfl, rfl, rfl, rfl⟩

/-- Claim C7 (code bug): the claim describes the rows written by
`updateExperimentSchedules`, but the code as written never writes any
row — the unconditional throw in `startExperimentSchedular` makes the
upsert unreachable, so the claim is vacuous on the code.  The intended
code writes exactly the rows the claim describes: for `exp7` a start
row and an end row whose ids are the experiment id joined with the
schedule type by an underscore, whose `experimentId` is the experiment
id, whose timestamps are `startOn` and `endOn`, and whose
`executionArn` is the handle returned by the step-function API. -/
theorem C7_row_shape_vacuous_on_code :
    ((updateExperimentSchedules env0 aws0 [] exp7).1.all (fun ef => !ef.isUpsert)) = true
    ∧ (updateExperimentSchedules env0 aws0 [] exp7).2 = []
    ∧ updateExperimentSchedulesFixed env0 aws0 [] exp7 =
      ([Effect.stepFnStart SCHEDULE_TYPE.START_EXPERIMENT
          (stepFnRequest env0 (some 4) "e7_start_experiment" SCHEDULE_TYPE.START_EXPERIMENT),
        Effect.upsertJob startRow7,
        Effect.stepFnStart SCHEDULE_TYPE.END_EXPERIMENT
          (stepFnRequest env0 (some 6) "e7_end_experiment" SCHEDULE_TYPE.END_EXPERIMENT),
        Effect.upsertJob endRow7],
        [startRow7, endRow7])
    ∧ startRow7.id = exp7.id ++ "_" ++ SCHEDULE_TYPE.START_EXPERIMENT.str
    ∧ endRow7.id = exp7.id ++ "_" ++ SCHEDULE_TYPE.END_EXPERIMENT.str
    ∧ startRow7.experimentId = exp7.id ∧ endRow7.experimentId = exp7.id
    ∧ startRow7.timeStamp = exp7.startOn ∧ endRow7.timeStamp = exp7.endOn := by
  refine ⟨rfl, rfl, rfl, rfl, rfl, rfl, rfl, rfl, rfl⟩

/-- Claim C8 (code bug): when the scheduled-job lookup returns no row,
`startExperiment` returns `{}` after the single job query — no
experiment query, no user query, no `updateState` call — but
`endExperiment` does not return `{}`: it dereferences
`scheduledJob.experimentId` on line 40 without a null check and
throws a `TypeError`. -/
theorem C8_missing_job_behaviour (ctx : SvcCtx) (id : String)
    (h : ctx.jobs.find? (fun j => j.id == id) = none) :
    startExperiment ctx id = ([SvcEffect.findJob id], Except.ok SvcResult.emptyObj)
    ∧ endExperiment ctx id = ([SvcEffect.findJob id],
        Except.error (JsError.typeError "Cannot read property experimentId of undefined")) := by
  constructor
  · simp [startExperiment, h]
  · simp [endExperiment, h]

/-- Concrete instance of the missing-job behaviour: empty job table,
id `j1`. -/
theorem C8_missing_job_behaviour_witness :
    ctx8.jobs.find? (fun j => j.id == "j1") = none
    ∧ (startExperiment ctx8 "j1" = ([SvcEffect.findJob "j1"], Except.ok SvcResult.emptyObj)
      ∧ endExperiment ctx8 "j1" = ([SvcEffect.findJob "j1"],
          Except.error (JsError.typeError "Cannot read property experimentId of undefined"))) :=
  ⟨rfl, C8_missing_job_behaviour ctx8 "j1" rfl⟩

/-- Claim C6: every step-function execution started by
`startExperimentSchedular` uses the configured state-machine ARN and
an input holding the job timestamp, the job body (its id), and the
callback URL `hostUrl + /scheduledJobs/start` for a start schedule and
`hostUrl + /scheduledJobs/end` otherwise. -/
theorem C6_step_function_request (env : Env) (aws : AwsOracle) (ts : Option Nat)
    (b : String) (ty : SCHEDULE_TYPE) :
    (startExperimentSchedular env aws ts b ty).1 =
      [Effect.stepFnStart ty
        { stateMachineArn := env.stepFunctionArn
          input :=
            { timeStamp := ts, bodyId := b
              url := if ty = SCHEDULE_TYPE.START_EXPERIMENT then
                  env.hostUrl ++ "/scheduledJobs/start"
                else
                  env.hostUrl ++ "/scheduledJobs/end" } }] := by
  obtain ⟨er, hthrow⟩ := schedular_always_throws env aws ts b ty
  rw [hthrow]
  cases ty <;> rfl

/-- Claim C4: for an experiment whose state is not `SCHEDULED`
(`experimentStartCondition` false) with an existing start job,
`updateExperimentSchedules` emits the delete of that job's row and the
stop call with the job's `executionArn`, and whatever else happens
afterwards, no row with that id remains in the table. -/
theorem C4_delete_and_stop_when_not_scheduled (env : Env) (aws : AwsOracle)
    (repo : List ScheduledJob) (e : Experiment) (sdoc : ScheduledJob)
    (hcond : experimentStartCondition e = false)
    (hsdoc : findScheduleDoc (scheduledJobsOf repo e.id) SCHEDULE_TYPE.START_EXPERIMENT
      = some sdoc) :
    Effect.deleteJob sdoc.id ∈ (updateExperimentSchedules env aws repo e).1
    ∧ Effect.stepFnStop sdoc.executionArn ∈ (updateExperimentSchedules env aws repo e).1
    ∧ ((updateExperimentSchedules env aws repo e).2.all (fun j => !(j.id == sdoc.id)))
      = true := by
  have hr1 : scheduleSection (startExperimentSchedular env aws) aws repo e.id
      (experimentStartCondition e) SCHEDULE_TYPE.START_EXPERIMENT e.startOn
      (findScheduleDoc (scheduledJobsOf repo e.id) SCHEDULE_TYPE.START_EXPERIMENT) =
      ⟨[Effect.deleteJob sdoc.id, Effect.stepFnStop sdoc.executionArn],
        deleteScheduledJob repo sdoc.id,
        match aws.stopExec sdoc.executionArn with
        | Except.ok _ => none
        | Except.error er => some er⟩ := by
    rw [hcond, hsdoc]
    rfl
  simp only [updateExperimentSchedules, updateExperimentSchedulesWith, updateInnerWith, hr1]
  cases hstop : aws.stopExec sdoc.executionArn with
  | error er =>
    refine ⟨by simp, by simp, ?_⟩
    simpa using deleteScheduledJob_all_ne repo sdoc.id
  | ok u =>
    rcases scheduleSection_faithful_spec env aws (deleteScheduledJob repo sdoc.id) e.id
        (experimentEndCondition e) SCHEDULE_TYPE.END_EXPERIMENT e.endOn
        (findScheduleDoc (scheduledJobsOf repo e.id) SCHEDULE_TYPE.END_EXPERIMENT) with
      h2 | ⟨er2, req2, h2⟩ | ⟨edoc, hed, hec, h2⟩
    · rw [h2]
      refine ⟨by simp, by simp, ?_⟩
      simpa using deleteScheduledJob_all_ne repo sdoc.id
    · rw [h2]
      refine ⟨by simp, by simp, ?_⟩
      simpa using deleteScheduledJob_all_ne repo sdoc.id
    · rw [h2]
      cases hstop2 : aws.stopExec edoc.executionArn with
      | error er3 =>
        refine ⟨by simp, by simp, ?_⟩
        simp only []
        exact all_of_subset _ _ _ (fun x hx => List.mem_of_mem_filter hx)
          (deleteScheduledJob_all_ne repo sdoc.id)
      | ok u2 =>
        refine ⟨by simp, by simp, ?_⟩
        simp only []
        exact all_of_subset _ _ _ (fun x hx => List.mem_of_mem_filter hx)
          (deleteScheduledJob_all_ne repo sdoc.id)

/-- An enrolling experiment (start condition false). -/
def expC4 : Experiment :=
  { id := "e4", state := EXPERIMENT_STATE.ENROLLING, startOn := some 2, endOn := none }

/-- The stale start job of `expC4`. -/
def startJobC4 : ScheduledJob :=
  { id := "e4_start_experiment", experimentId := "e4"
    type := SCHEDULE_TYPE.START_EXPERIMENT, timeStamp := some 2
    executionArn := some "arn:old4" }

/-- Concrete instance of the delete-and-stop behaviour: an enrolling
experiment with a stale start job. -/
theorem C4_delete_and_stop_when_not_scheduled_witness :
    experimentStartCondition expC4 = false
    ∧ findScheduleDoc (scheduledJobsOf [startJobC4] expC4.id) SCHEDULE_TYPE.START_EXPERIMENT
      = some startJobC4
    ∧ (Effect.deleteJob startJobC4.id ∈ (updateExperimentSchedules env0 aws0 [startJobC4] expC4).1
      ∧ Effect.stepFnStop startJobC4.executionArn
          ∈ (updateExperimentSchedules env0 aws0 [startJobC4] expC4).1
      ∧ (((updateExperimentSchedules env0 aws0 [startJobC4] expC4).2.all
          (fun j => !(j.id == startJobC4.id)))) = true) :=
  ⟨rfl, rfl, C4_delete_and_stop_when_not_scheduled env0 aws0 [startJobC4] expC4 startJobC4 rfl rfl⟩

/-- A scheduled experiment whose jobs already carry exactly its
dates (same instants). -/
def exp3 : Experiment :=
  { id := "e3", state := EXPERIMENT_STATE.SCHEDULED, startOn := some 5, endOn := some 8 }

/-- The start job of `exp3`, value-equal to `startOn`. -/
def sjob3 : ScheduledJob :=
  { id := "e3_start_experiment", experimentId := "e3"
    type := SCHEDULE_TYPE.START_EXPERIMENT, timeStamp := some 5
    executionArn := some "arn:s3" }

/-- The end job of `exp3`, value-equal to `endOn`. -/
def ejob3 : ScheduledJob :=
  { id := "e3_end_experiment", experimentId := "e3"
    type := SCHEDULE_TYPE.END_EXPERIMENT, timeStamp := some 8
    executionArn := some "arn:e3" }

/-- The table holding both up-to-date jobs of `exp3`. -/
def repo3 : List ScheduledJob := [sjob3, ejob3]

/-- The start row as the intended code rewrites it on every run: same
timestamp, fresh execution handle. -/
def sjob3new : ScheduledJob :=
  { id := "e3_start_experiment", experimentId := "e3"
    type := SCHEDULE_TYPE.START_EXPERIMENT, timeStamp := some 5
    executionArn := some "arn:exec:1" }

/-- The end row as the intended code rewrites it on every run. -/
def ejob3new : ScheduledJob :=
  { id := "e3_end_experiment", experimentId := "e3"
    type := SCHEDULE_TYPE.END_EXPERIMENT, timeStamp := some 8
    executionArn := some "arn:exec:1" }

/-- Claim C3 (code bug): the claimed skip never happens for a set
date.  Lines 74 and 112 compare `doc.timeStamp !== startOn` between
the ORM-hydrated Date of the row and the experiment's Date — two
distinct objects, so strict inequality holds even at the same instant
— and the call branch is taken: for `exp3`, whose start and end jobs
both already carry exactly `startOn` and `endOn`, the code still makes
the start step-function call (refuting the no-call half of the claim);
the rows then stay untouched only because the line-168 throw aborts
the method.  Even with that throw repaired
(`updateExperimentSchedulesFixed`), the program re-schedules both
jobs: it stops the old executions and upserts both rows with fresh
handles, so the claimed leave-unchanged behaviour does not exist in
the program under either repair. -/
theorem C3_skip_branch_unreachable :
    updateExperimentSchedules env0 aws0 repo3 exp3 =
      ([Effect.stepFnStart SCHEDULE_TYPE.START_EXPERIMENT
          (stepFnRequest env0 (some 5) "e3_start_experiment" SCHEDULE_TYPE.START_EXPERIMENT),
        Effect.logError "Error in experiment schedular QUERY_FAILED: Logs of step function arn:exec:1"],
        repo3)
    ∧ ((updateExperimentSchedules env0 aws0 repo3 exp3).1.all
        (fun ef => !(ef.isStepFnStartOf SCHEDULE_TYPE.START_EXPERIMENT))) = false
    ∧ sjob3.timeStamp = exp3.startOn ∧ ejob3.timeStamp = exp3.endOn
    ∧ updateExperimentSchedulesFixed env0 aws0 repo3 exp3 =
      ([Effect.stepFnStart SCHEDULE_TYPE.START_EXPERIMENT
          (stepFnRequest env0 (some 5) "e3_start_experiment" SCHEDULE_TYPE.START_EXPERIMENT),
        Effect.stepFnStop (some "arn:s3"),
        Effect.upsertJob sjob3new,
        Effect.stepFnStart SCHEDULE_TYPE.END_EXPERIMENT
          (stepFnRequest env0 (some 8) "e3_end_experiment" SCHEDULE_TYPE.END_EXPERIMENT),
        Effect.stepFnStop (some "arn:e3"),
        Effect.upsertJob ejob3new],
        [sjob3new, ejob3new]) := by
  refine ⟨rfl, rfl, rfl, rfl, rfl⟩

/-- Claim C2: given an existing scheduled job with a non-empty
`experimentId` whose experiment exists, `startExperiment` performs
only reads and then delegates to
`updateState(experimentId, ENROLLING, systemUser)` — its whole effect
trace is the three lookups followed by the one `updateState` call, and
its return value is that call's result; `endExperiment` does the same
with `ENROLLMENT_COMPLETE`. -/
theorem C2_delegates_to_updateState (ctx : SvcCtx) (id : String) (job : ScheduledJob)
    (hjob : ctx.jobs.find? (fun j => j.id == id) = some job)
    (hexpId : job.experimentId ≠ "")
    (hexp : (ctx.experiments.find? (fun x => x.id == job.experimentId)).isSome = true) :
    startExperiment ctx id =
      ([SvcEffect.findJob id, SvcEffect.findExperiment job.experimentId,
        SvcEffect.findUser systemUserId,
        SvcEffect.updateStateCall job.experimentId EXPERIMENT_STATE.ENROLLING
          (ctx.users.find? (fun u => u.id == systemUserId))],
        Except.ok (SvcResult.updateStateResult job.experimentId EXPERIMENT_STATE.ENROLLING
          (ctx.users.find? (fun u => u.id == systemUserId))))
    ∧ endExperiment ctx id =
      ([SvcEffect.findJob id, SvcEffect.findExperiment job.experimentId,
        SvcEffect.findUser systemUserId,
        SvcEffect.updateStateCall job.experimentId EXPERIMENT_STATE.ENROLLMENT_COMPLETE
          (ctx.users.find? (fun u => u.id == systemUserId))],
        Except.ok (SvcResult.updateStateResult job.experimentId
          EXPERIMENT_STATE.ENROLLMENT_COMPLETE
          (ctx.users.find? (fun u => u.id == systemUserId)))) := by
  obtain ⟨x, hx⟩ := Option.isSome_iff_exists.mp hexp
  have hbeq : (job.experimentId == "") = false := beq_eq_false_iff_ne.mpr hexpId
  constructor
  · simp [startExperiment, hjob, hbeq, hx]
  · simp [endExperiment, hjob, hx]

/-- A scheduled job pointing at experiment `eA`. -/
def job2 : ScheduledJob :=
  { id := "sj1", experimentId := "eA"
    type := SCHEDULE_TYPE.START_EXPERIMENT, timeStamp := some 1, executionArn := none }

/-- The experiment `eA`. -/
def expA : Experiment :=
  { id := "eA", state := EXPERIMENT_STATE.INACTIVE, startOn := some 1, endOn := none }

/-- The seeded system user. -/
def userS : User := { id := systemUserId }

/-- Tables holding `job2`, `expA` and the system user. -/
def ctx2 : SvcCtx := { jobs := [job2], experiments := [expA], users := [userS] }

/-- Concrete instance of the delegation behaviour. -/
theorem C2_delegates_to_updateState_witness :
    ctx2.jobs.find? (fun j => j.id == "sj1") = some job2
    ∧ job2.experimentId ≠ ""
    ∧ (ctx2.experiments.find? (fun x => x.id == job2.experimentId)).isSome = true
    ∧ (startExperiment ctx2 "sj1" =
        ([SvcEffect.findJob "sj1", SvcEffect.findExperiment job2.experimentId,
          SvcEffect.findUser systemUserId,
          SvcEffect.updateStateCall job2.experimentId EXPERIMENT_STATE.ENROLLING
            (ctx2.users.find? (fun u => u.id == systemUserId))],
          Except.ok (SvcResult.updateStateResult job2.experimentId EXPERIMENT_STATE.ENROLLING
            (ctx2.users.find? (fun u => u.id == systemUserId))))
      ∧ endExperiment ctx2 "sj1" =
        ([SvcEffect.findJob "sj1", SvcEffect.findExperiment job2.experimentId,
          SvcEffect.findUser systemUserId,
          SvcEffect.updateStateCall job2.experimentId EXPERIMENT_STATE.ENROLLMENT_COMPLETE
            (ctx2.users.find? (fun u => u.id == systemUserId))],
          Except.ok (SvcResult.updateStateResult job2.experimentId
            EXPERIMENT_STATE.ENROLLMENT_COMPLETE
            (ctx2.users.find? (fun u => u.id == systemUserId))))) :=
  ⟨rfl, by decide, rfl, C2_delegates_to_updateState ctx2 "sj1" job2 rfl (by decide) rfl⟩

/-- Claim C9: whatever the environment, the AWS oracle behaviour and
the stored rows — including oracles that reject every call —
`updateExperimentSchedules` returns a normal pair; when its body
aborted with some error, the returned trace is the body's trace
extended by exactly the one log entry recording the error's message,
and otherwise the body's outcome is returned as-is.  No error
propagates to the caller. -/
theorem C9_errors_caught_and_logged (env : Env) (aws : AwsOracle)
    (repo : List ScheduledJob) (e : Experiment) :
    ((updateInnerWith (startExperimentSchedular env aws) aws repo e).error = none
      ∧ updateExperimentSchedules env aws repo e =
        ((updateInnerWith (startExperimentSchedular env aws) aws repo e).trace,
          (updateInnerWith (startExperimentSchedular env aws) aws repo e).repo))
    ∨ (∃ er, (updateInnerWith (startExperimentSchedular env aws) aws repo e).error = some er
      ∧ updateExperimentSchedules env aws repo e =
        ((updateInnerWith (startExperimentSchedular env aws) aws repo e).trace
            ++ [Effect.logError ("Error in experiment schedular " ++ er.message)],
          (updateInnerWith (startExperimentSchedular env aws) aws repo e).repo)) := by
  cases h : (updateInnerWith (startExperimentSchedular env aws) aws repo e).error with
  | none =>
    exact Or.inl ⟨rfl, by simp [updateExperimentSchedules, updateExperimentSchedulesWith, h]⟩
  | some er =>
    exact Or.inr ⟨er, rfl, by simp [updateExperimentSchedules, updateExperimentSchedulesWith, h]⟩

/-- Claim C10: a `createConnection` failure is classified into exactly
two errors — `DB_UNREACHABLE` is thrown if and only if the driver
error's code is `ECONNREFUSED`, and `DB_AUTH_FAIL` for every other
failure — and on success with settings present the loader stores the
connection under the key `connection` and registers a shutdown handler
that closes that connection. -/
theorem C10_loader_classification (db : DbEnv) (loaded : LoadedConnectionOptions)
    (create : ConnectionOptions → Except ConnError Connection) (settings : Option Unit) :
    (∀ er, create (assignConnectionOptions loaded db) = Except.error er →
      ((typeormLoader db (Except.ok loaded) create settings).2 =
          Except.error (JsError.err SERVER_ERROR_DB_UNREACHABLE) ↔ er.code = some "ECONNREFUSED")
      ∧ (er.code ≠ some "ECONNREFUSED" →
        (typeormLoader db (Except.ok loaded) create settings).2 =
          Except.error (JsError.err SERVER_ERROR_DB_AUTH_FAIL)))
    ∧ (∀ conn, create (assignConnectionOptions loaded db) = Except.ok conn →
      (typeormLoader db (Except.ok loaded) create (some ())).1 =
        [LoaderEffect.setData "connection" conn,
          LoaderEffect.onShutdown (ShutdownAction.closeConnection conn)]
      ∧ (typeormLoader db (Except.ok loaded) create settings).2 = Except.ok ()) := by
  constructor
  · intro er her
    have hload : typeormLoader db (Except.ok loaded) create settings =
        ([LoaderEffect.consoleLogError er],
          if er.code == some "ECONNREFUSED" then
            Except.error (JsError.err SERVER_ERROR_DB_UNREACHABLE)
          else
            Except.error (JsError.err SERVER_ERROR_DB_AUTH_FAIL)) := by
      simp [typeormLoader, her]
    constructor
    · constructor
      · intro hthrown
        by_contra hc
        have hf : (er.code == some "ECONNREFUSED") = false := beq_eq_false_iff_ne.mpr hc
        rw [hload] at hthrown
        simp only [hf, if_false] at hthrown
        have : SERVER_ERROR_DB_AUTH_FAIL = SERVER_ERROR_DB_UNREACHABLE := by
          injection hthrown with h1
          injection h1
        exact absurd this (by decide)
      · intro hc
        have ht : (er.code == some "ECONNREFUSED") = true := by simp [hc]
        rw [hload]
        simp [ht]
    · intro hne
      have hf : (er.code == some "ECONNREFUSED") = false := beq_eq_false_iff_ne.mpr hne
      rw [hload]
      simp [hf]
  · intro conn hconn
    constructor
    · simp [typeormLoader, hconn]
    · cases settings <;> simp [typeormLoader, hconn]

/-- A driver error with code `ECONNREFUSED`. -/
def connErrRefused : ConnError := { code := some "ECONNREFUSED", message := "connect ECONNREFUSED" }

/-- A driver error without a code. -/
def connErrAuth : ConnError := { code := none, message := "password authentication failed" }

/-- A loader environment. -/
def db10 : DbEnv :=
  { dbType := "postgres", host := "localhost", port := 5432, username := "u", password := "p"
    synchronize := true, logging := false, entities := ["entities"], migrations := ["migrations"] }

/-- Loaded base options. -/
def loaded10 : LoadedConnectionOptions := { base := [("name", "default")] }

/-- A connection oracle refusing the connection. -/
def createRefused : ConnectionOptions → Except ConnError Connection :=
  fun _ => Except.error connErrRefused

/-- A connection oracle failing authentication. -/
def createAuthFail : ConnectionOptions → Except ConnError Connection :=
  fun _ => Except.error connErrAuth

/-- A connection oracle that connects. -/
def createOk : ConnectionOptions → Except ConnError Connection :=
  fun _ => Except.ok { connId := 7 }

/-- Concrete instances of the loader classification: refused
connection, other failure, and success with settings. -/
theorem C10_loader_classification_witness :
    (typeormLoader db10 (Except.ok loaded10) createRefused none).2 =
        Except.error (JsError.err SERVER_ERROR_DB_UNREACHABLE)
    ∧ (typeormLoader db10 (Except.ok loaded10) createAuthFail none).2 =
        Except.error (JsError.err SERVER_ERROR_DB_AUTH_FAIL)
    ∧ (typeormLoader db10 (Except.ok loaded10) createOk (some ())).1 =
        [LoaderEffect.setData "connection" { connId := 7 },
          LoaderEffect.onShutdown (ShutdownAction.closeConnection { connId := 7 })] := by
  refine ⟨?_, ?_, ?_⟩
  · exact ((C10_loader_classification db10 loaded10 createRefused none).1
      connErrRefused rfl).1.mpr rfl
  · exact ((C10_loader_classification db10 loaded10 createAuthFail none).1
      connErrAuth rfl).2 (by decide)
  · exact ((C10_loader_classification db10 loaded10 createOk (some ())).2
      { connId := 7 } rfl).1

end EES
